import Mathlib

/-!
Verification of the `maxcul` climate adapter (`src/maxcul/climate.py`).

The adapter exposes a MAX! thermostat to the home-automation framework.
We embed its entity state, its update handler and its command methods as
pure Lean functions with explicit state passing; calls issued on the
underlying connection object are reified as values of `ConnCall`.
Temperatures are modelled as rationals, device ids as naturals, mode
strings as Lean strings.
-/

/-- Mode constant of the external `maxcul` library (`MODE_AUTO = 'auto'`),
consumed opaquely by the adapter. -/
def MODE_AUTO : String := "auto"

/-- Mode constant of the external `maxcul` library (`MODE_MANUAL = 'manual'`). -/
def MODE_MANUAL : String := "manual"

/-- Mode constant of the external `maxcul` library (`MODE_BOOST = 'boost'`). -/
def MODE_BOOST : String := "boost"

/-- Minimum temperature constant of the external `maxcul` library (4.5 °C),
the lower bound of the protocol's representable range. -/
def MIN_TEMPERATURE : ℚ := 9/2

/-- Maximum temperature constant of the external `maxcul` library (30.5 °C),
the upper bound of the protocol's representable range. -/
def MAX_TEMPERATURE : ℚ := 61/2

/-- Framework constant `HVAC_MODE_AUTO = "auto"`. -/
def HVAC_MODE_AUTO : String := "auto"

/-- Framework constant `HVAC_MODE_HEAT = "heat"`. -/
def HVAC_MODE_HEAT : String := "heat"

/-- Framework constant `HVAC_MODE_OFF = "off"`. -/
def HVAC_MODE_OFF : String := "off"

/-- Framework constant `PRESET_BOOST = "boost"`. -/
def PRESET_BOOST : String := "boost"

/-- Framework constant `PRESET_NONE = "none"`. -/
def PRESET_NONE : String := "none"

/-- The mutable state of a `MaxThermostat` entity, as initialised in
`MaxThermostat.__init__`: name, paired device id, and the four cached
fields `_current_temperature`, `_target_temperature`, `_mode`,
`_battery_low`.  The three temperature/mode fields start out `None`
(here `none`) and `_battery_low` starts out `False`. -/
structure MaxThermostat where
  name : String
  device_id : ℕ
  current_temperature : Option ℚ
  target_temperature : Option ℚ
  mode : Option String
  battery_low : Bool
  deriving Repr, DecidableEq

/-- An update payload delivered through the dispatcher to the handler
`update` inside `async_added_to_hass`.  The handler reads it with
`payload.get(...)`, which yields `None` (`none`) for absent keys, so each
field is optional. -/
structure Payload where
  device_id : Option ℕ
  measured_temperature : Option ℚ
  desired_temperature : Option ℚ
  mode : Option String
  battery_low : Option Bool
  deriving Repr, DecidableEq

/-- A call issued on the connection object `self._maxcul_connection`.
`set_temperature` forwards the entity's cached target temperature, which
may still be `None`, so its temperature argument is optional. -/
inductive ConnCall where
  | addPairedDevice (device_id : ℕ)
  | wakeup (device_id : ℕ)
  | setTemperature (device_id : ℕ) (temperature : Option ℚ) (mode : String)
  deriving Repr, DecidableEq

/-- `MaxThermostat.__init__`: records the name and device id, initialises
the cached fields, and calls `add_paired_device(device_id)` on the
connection.  Returns the fresh state and the connection calls issued. -/
def MaxThermostat.init (device_id : ℕ) (name : String) :
    MaxThermostat × List ConnCall :=
  (⟨name, device_id, none, none, none, false⟩,
   [ConnCall.addPairedDevice device_id])

/-- The field-by-field merge performed by the `update` handler once the
device id matched: each of the four cached fields is overwritten exactly
when the corresponding payload field `is not None`. -/
def MaxThermostat.applyUpdate (s : MaxThermostat) (p : Payload) :
    MaxThermostat :=
  { s with
    current_temperature :=
      match p.measured_temperature with
      | some t => some t
      | none => s.current_temperature
    target_temperature :=
      match p.desired_temperature with
      | some t => some t
      | none => s.target_temperature
    mode :=
      match p.mode with
      | some m => some m
      | none => s.mode
    battery_low :=
      match p.battery_low with
      | some b => b
      | none => s.battery_low }

/-- The dispatcher callback `update(payload)` of `async_added_to_hass`.
It first reads `payload.get(ATTR_DEVICE_ID)` and returns immediately when
it differs from `self._device_id` (a missing id, `none`, always differs
from `some _`).  Otherwise it merges the payload fields and calls
`async_schedule_update_ha_state()`.  The boolean of the result records
whether that state-change notification was scheduled. -/
def MaxThermostat.update (s : MaxThermostat) (p : Payload) :
    MaxThermostat × Bool :=
  if p.device_id = some s.device_id then
    (s.applyUpdate p, true)
  else
    (s, false)

/-- Python truthiness of `x or default` on an optional string: `None` and
the empty string are falsy. -/
def pyStrOr (x : Option String) (default : String) : String :=
  match x with
  | some m => if m = "" then default else m
  | none => default

/-- `MaxThermostat.set_temperature(**kwargs)`: reads
`kwargs.get(ATTR_TEMPERATURE)` (absent and explicit `None` both model as
`none`); when it is `None` the method returns at once, otherwise it calls
`set_temperature(device_id, target, self._mode or MODE_MANUAL)` on the
connection.  No entity field is assigned in either branch. -/
def MaxThermostat.set_temperature (s : MaxThermostat)
    (attr_temperature : Option ℚ) : MaxThermostat × List ConnCall :=
  match attr_temperature with
  | none => (s, [])
  | some t =>
      (s, [ConnCall.setTemperature s.device_id (some t)
            (pyStrOr s.mode MODE_MANUAL)])

/-- The `hvac_mode` property: `HVAC_MODE_AUTO` when the cached mode is in
`[MODE_AUTO, MODE_BOOST]`, `HVAC_MODE_OFF` when it is `MODE_MANUAL` with
the cached target temperature equal to `MIN_TEMPERATURE`, and
`HVAC_MODE_HEAT` otherwise. -/
def MaxThermostat.hvac_mode (s : MaxThermostat) : String :=
  if s.mode = some MODE_AUTO ∨ s.mode = some MODE_BOOST then
    HVAC_MODE_AUTO
  else if s.mode = some MODE_MANUAL ∧
      s.target_temperature = some MIN_TEMPERATURE then
    HVAC_MODE_OFF
  else
    HVAC_MODE_HEAT

/-- `MaxThermostat.set_hvac_mode(hvac_mode)`: `HVAC_MODE_OFF` sends
`(device_id, MIN_TEMPERATURE, MODE_MANUAL)`, `HVAC_MODE_AUTO` sends
`(device_id, self._target_temperature, MODE_AUTO)`, anything else sends
`(device_id, self._target_temperature, MODE_MANUAL)`.  No entity field is
assigned. -/
def MaxThermostat.set_hvac_mode (s : MaxThermostat) (hvac_mode : String) :
    MaxThermostat × List ConnCall :=
  if hvac_mode = HVAC_MODE_OFF then
    (s, [ConnCall.setTemperature s.device_id (some MIN_TEMPERATURE)
          MODE_MANUAL])
  else if hvac_mode = HVAC_MODE_AUTO then
    (s, [ConnCall.setTemperature s.device_id s.target_temperature
          MODE_AUTO])
  else
    (s, [ConnCall.setTemperature s.device_id s.target_temperature
          MODE_MANUAL])

/-- `MaxThermostat.set_preset_mode(preset_mode)`: only `PRESET_BOOST`
triggers a connection call, `set_temperature(device_id,
self._target_temperature, MODE_BOOST)`; any other preset string falls
through the single `if` and the method does nothing. -/
def MaxThermostat.set_preset_mode (s : MaxThermostat)
    (preset_mode : String) : MaxThermostat × List ConnCall :=
  if preset_mode = PRESET_BOOST then
    (s, [ConnCall.setTemperature s.device_id s.target_temperature
          MODE_BOOST])
  else
    (s, [])

/-- `MaxThermostat.async_added_to_hass`: registers the update callback on
the dispatcher and calls `wakeup(device_id)` on the connection; the entity
fields are untouched. -/
def MaxThermostat.async_added_to_hass (s : MaxThermostat) :
    MaxThermostat × List ConnCall :=
  (s, [ConnCall.wakeup s.device_id])

/-!
Lifecycle traces.  For the temporal claim about pairing we model a whole
entity lifecycle: construction followed by an arbitrary sequence of
framework calls, accumulating the connection calls in order.
-/

/-- A framework-initiated call on the entity after construction. -/
inductive AdapterCall where
  | addedToHass
  | setTemperature (attr_temperature : Option ℚ)
  | setHvacMode (hvac_mode : String)
  | setPresetMode (preset_mode : String)
  | update (payload : Payload)
  deriving Repr

/-- Dispatch of one framework call to the corresponding method.  Update
events only touch entity state; they issue no connection call. -/
def MaxThermostat.step (s : MaxThermostat) :
    AdapterCall → MaxThermostat × List ConnCall
  | .addedToHass => s.async_added_to_hass
  | .setTemperature t => s.set_temperature t
  | .setHvacMode m => s.set_hvac_mode m
  | .setPresetMode p => s.set_preset_mode p
  | .update p => ((s.update p).1, [])

/-- Run a sequence of framework calls from a state, collecting the
connection calls in issue order. -/
def MaxThermostat.run (s : MaxThermostat) :
    List AdapterCall → MaxThermostat × List ConnCall
  | [] => (s, [])
  | c :: cs =>
      let r1 := s.step c
      let r2 := r1.1.run cs
      (r2.1, r1.2 ++ r2.2)

/-- All connection calls issued during an entity lifecycle: those of the
constructor followed by those of the subsequent framework calls. -/
def lifecycleTrace (device_id : ℕ) (name : String)
    (calls : List AdapterCall) : List ConnCall :=
  (MaxThermostat.init device_id name).2 ++
    ((MaxThermostat.init device_id name).1.run calls).2

/-- Whether a connection call is a command sent towards the device
(`set_temperature` or `wakeup`), as opposed to the pairing registration. -/
def ConnCall.isCommand : ConnCall → Bool
  | .setTemperature _ _ _ => true
  | .wakeup _ => true
  | .addPairedDevice _ => false

/-!
The frame codec.  The codec lives in the external radio driver, not in
this repository; the spec specifies it as the core contract the adapter
relies on (§4.1, §6, §8 of the spec).
-/

/-- Modelled from the spec: the mode enum `{auto, manual, boost}` of the
Frame Codec (the codec itself is not part of the visible source). -/
inductive Mode where
  | auto
  | manual
  | boost
  deriving Repr, DecidableEq

/-- Modelled from the spec: an outgoing command carrying target device id,
desired temperature and desired mode. -/
structure Command where
  device_id : ℕ
  temperature : ℚ
  mode : Mode
  deriving Repr, DecidableEq

/-- Modelled from the spec: the command opcode of the fixed frame
layout. -/
def OPCODE_SET_TEMPERATURE : ℕ := 64

/-- Modelled from the spec: the protocol encodes temperatures at 0.5 °C
resolution; a temperature is quantized to its nearest number of
half-degrees. -/
def quantizeTemp (t : ℚ) : ℕ :=
  (⌊2 * t + 1/2⌋).toNat

/-- Modelled from the spec: the trailing checksum of a frame body, the
byte sum reduced modulo 256. -/
def checksum (body : List ℕ) : ℕ :=
  body.sum % 256

/-- Modelled from the spec: the mode field, encoded in one byte. -/
def encodeMode : Mode → ℕ
  | .auto => 0
  | .manual => 1
  | .boost => 2

/-- Modelled from the spec: inverse mapping of the mode byte; any other
byte is rejected. -/
def decodeMode : ℕ → Option Mode
  | 0 => some Mode.auto
  | 1 => some Mode.manual
  | 2 => some Mode.boost
  | _ => none

/-- Modelled from the spec: `encode(command)` produces the fixed-format
frame — opcode, 24-bit device address (big endian), quantized
temperature byte, mode byte, trailing checksum — and fails when the
temperature lies outside `[MIN_TEMPERATURE, MAX_TEMPERATURE]` or the
device id exceeds the 24-bit address space. -/
def encode (c : Command) : Option (List ℕ) :=
  if MIN_TEMPERATURE ≤ c.temperature ∧ c.temperature ≤ MAX_TEMPERATURE ∧
      c.device_id < 2 ^ 24 then
    some [OPCODE_SET_TEMPERATURE,
          c.device_id / 65536 % 256, c.device_id / 256 % 256,
          c.device_id % 256,
          quantizeTemp c.temperature, encodeMode c.mode,
          checksum [OPCODE_SET_TEMPERATURE,
            c.device_id / 65536 % 256, c.device_id / 256 % 256,
            c.device_id % 256,
            quantizeTemp c.temperature, encodeMode c.mode]]
  else none

/-- Modelled from the spec: `decode(bytes)` validates length, opcode and
checksum, rejects unknown mode bytes, and maps the protocol encodings
back to the domain types; malformed input yields no event. -/
def decode (frame : List ℕ) : Option Command :=
  match frame with
  | [op, a1, a2, a3, t, m, ck] =>
      if op = OPCODE_SET_TEMPERATURE ∧
          ck = checksum [op, a1, a2, a3, t, m] then
        match decodeMode m with
        | some mode =>
            some ⟨a1 * 65536 + a2 * 256 + a3, (t : ℚ) / 2, mode⟩
        | none => none
      else none
  | _ => none

lemma decodeMode_encodeMode (m : Mode) :
    decodeMode (encodeMode m) = some m := by
  cases m <;> rfl

lemma quantizeTemp_close (t : ℚ) (h : MIN_TEMPERATURE ≤ t) :
    |((quantizeTemp t : ℕ) : ℚ) / 2 - t| ≤ 1/4 := by
  have hmin : (9:ℚ)/2 ≤ t := h
  have h0 : (0:ℚ) ≤ 2 * t + 1/2 := by linarith
  have hnn : (0:ℤ) ≤ ⌊2 * t + 1/2⌋ := Int.floor_nonneg.mpr h0
  have hcast : ((quantizeTemp t : ℕ) : ℚ) = ((⌊2 * t + 1/2⌋ : ℤ) : ℚ) := by
    unfold quantizeTemp
    exact_mod_cast congrArg (fun z : ℤ => (z : ℚ)) (Int.toNat_of_nonneg hnn)
  have hle : ((⌊2 * t + 1/2⌋ : ℤ) : ℚ) ≤ 2 * t + 1/2 := Int.floor_le _
  have hgt : 2 * t + 1/2 < ((⌊2 * t + 1/2⌋ : ℤ) : ℚ) + 1 :=
    Int.lt_floor_add_one _
  rw [hcast, abs_le]
  constructor <;> linarith

/-!
Claim theorems.
-/

/-- C1: the update handler is a partial merge — for a payload addressed
to the entity's own device id, each of the four cached fields is
overwritten exactly when the corresponding payload field is present, and
an absent field leaves the previously stored value unchanged. -/
theorem claim_C1 (s : MaxThermostat) (p : Payload)
    (h : p.device_id = some s.device_id) :
    (∀ t, p.measured_temperature = some t →
      (s.update p).1.current_temperature = some t) ∧
    (p.measured_temperature = none →
      (s.update p).1.current_temperature = s.current_temperature) ∧
    (∀ t, p.desired_temperature = some t →
      (s.update p).1.target_temperature = some t) ∧
    (p.desired_temperature = none →
      (s.update p).1.target_temperature = s.target_temperature) ∧
    (∀ m, p.mode = some m → (s.update p).1.mode = some m) ∧
    (p.mode = none → (s.update p).1.mode = s.mode) ∧
    (∀ b, p.battery_low = some b → (s.update p).1.battery_low = b) ∧
    (p.battery_low = none → (s.update p).1.battery_low = s.battery_low) := by
  unfold MaxThermostat.update
  rw [if_pos h]
  unfold MaxThermostat.applyUpdate
  and_intros <;> intros <;> simp_all

/-- C1 witness: a payload carrying only a measured temperature leaves a
previously stored mode untouched. -/
theorem claim_C1_witness :
    (MaxThermostat.update ⟨"t", 5, none, some 20, some MODE_AUTO, false⟩
      ⟨some 5, some (43/2), none, none, none⟩).1.mode = some MODE_AUTO :=
  (claim_C1 ⟨"t", 5, none, some 20, some MODE_AUTO, false⟩
    ⟨some 5, some (43/2), none, none, none⟩ rfl).2.2.2.2.2.1 rfl

/-- C2: an update payload whose device id differs from the entity's
paired device id (including a missing id) is discarded — the state is
returned unchanged and no state-change notification is scheduled. -/
theorem claim_C2 (s : MaxThermostat) (p : Payload)
    (h : p.device_id ≠ some s.device_id) :
    s.update p = (s, false) := by
  unfold MaxThermostat.update
  rw [if_neg h]

/-- C2 witness: an update carrying no device id leaves a concrete entity
untouched and unscheduled. -/
theorem claim_C2_witness :
    MaxThermostat.update ⟨"t", 5, none, none, none, false⟩
      ⟨none, some 21, some 22, some MODE_BOOST, some true⟩ =
      (⟨"t", 5, none, none, none, false⟩, false) :=
  claim_C2 ⟨"t", 5, none, none, none, false⟩
    ⟨none, some 21, some 22, some MODE_BOOST, some true⟩ (by decide)

/-- C3: an update payload addressed to the entity's own device id always
schedules a state-change notification, even when it carries no field. -/
theorem claim_C3 (s : MaxThermostat) (p : Payload)
    (h : p.device_id = some s.device_id) :
    (s.update p).2 = true := by
  unfold MaxThermostat.update
  rw [if_pos h]

/-- C3 witness: the empty payload addressed to the entity still schedules
a notification. -/
theorem claim_C3_witness :
    (MaxThermostat.update ⟨"t", 5, none, none, none, false⟩
      ⟨some 5, none, none, none, none⟩).2 = true :=
  claim_C3 ⟨"t", 5, none, none, none, false⟩
    ⟨some 5, none, none, none, none⟩ rfl

/-- C4: the `hvac_mode` property returns `HVAC_MODE_AUTO` exactly when
the cached mode is `MODE_AUTO` or `MODE_BOOST`, `HVAC_MODE_OFF` exactly
when the cached mode is `MODE_MANUAL` and the cached target temperature
equals `MIN_TEMPERATURE`, and `HVAC_MODE_HEAT` exactly in every other
state. -/
theorem claim_C4 (s : MaxThermostat) :
    (s.hvac_mode = HVAC_MODE_AUTO ↔
      (s.mode = some MODE_AUTO ∨ s.mode = some MODE_BOOST)) ∧
    (s.hvac_mode = HVAC_MODE_OFF ↔
      (s.mode = some MODE_MANUAL ∧
        s.target_temperature = some MIN_TEMPERATURE)) ∧
    (s.hvac_mode = HVAC_MODE_HEAT ↔
      (¬(s.mode = some MODE_AUTO ∨ s.mode = some MODE_BOOST) ∧
       ¬(s.mode = some MODE_MANUAL ∧
          s.target_temperature = some MIN_TEMPERATURE))) := by
  unfold MaxThermostat.hvac_mode
  split_ifs with h1 h2
  · rcases h1 with h1 | h1 <;>
      simp_all [HVAC_MODE_AUTO, HVAC_MODE_OFF, HVAC_MODE_HEAT,
        MODE_AUTO, MODE_BOOST, MODE_MANUAL]
  · simp_all [HVAC_MODE_AUTO, HVAC_MODE_OFF, HVAC_MODE_HEAT,
      MODE_AUTO, MODE_BOOST, MODE_MANUAL]
  · simp_all [HVAC_MODE_AUTO, HVAC_MODE_OFF, HVAC_MODE_HEAT,
      MODE_AUTO, MODE_BOOST, MODE_MANUAL]

/-- C5: `set_hvac_mode` always issues exactly one `set_temperature`
connection call: `(device_id, MIN_TEMPERATURE, MODE_MANUAL)` for
`HVAC_MODE_OFF`, `(device_id, target, MODE_AUTO)` for `HVAC_MODE_AUTO`,
and `(device_id, target, MODE_MANUAL)` for every other mode string. -/
theorem claim_C5 (s : MaxThermostat) (m : String) :
    s.set_hvac_mode m =
      (s, [ConnCall.setTemperature s.device_id
            (if m = HVAC_MODE_OFF then some MIN_TEMPERATURE
             else s.target_temperature)
            (if m = HVAC_MODE_OFF then MODE_MANUAL
             else if m = HVAC_MODE_AUTO then MODE_AUTO
             else MODE_MANUAL)]) := by
  unfold MaxThermostat.set_hvac_mode
  split_ifs with h1 h2 <;> simp_all

/-- C8: `set_temperature` with no `ATTR_TEMPERATURE` entry (or with its
value `None`) returns without any connection call and without modifying
any entity state field. -/
theorem claim_C8 (s : MaxThermostat) :
    s.set_temperature none = (s, []) := rfl

/-- C9: `set_temperature` with a target temperature forwards the entity's
stored mode when that mode is truthy, and `MODE_MANUAL` otherwise (in
particular when the stored mode is still `None`), issuing exactly that
one connection call and leaving the entity state unchanged. -/
theorem claim_C9 (s : MaxThermostat) (t : ℚ) :
    s.set_temperature (some t) =
      (s, [ConnCall.setTemperature s.device_id (some t)
            (match s.mode with
             | some m => if m = "" then MODE_MANUAL else m
             | none => MODE_MANUAL)]) := rfl

/-- C10: `set_preset_mode` issues the single connection call
`set_temperature(device_id, target, MODE_BOOST)` for `PRESET_BOOST`, and
performs no connection call and no state change for every other preset
string. -/
theorem claim_C10 (s : MaxThermostat) (p : String) :
    s.set_preset_mode p =
      (s, if p = PRESET_BOOST
          then [ConnCall.setTemperature s.device_id s.target_temperature
                 MODE_BOOST]
          else []) := by
  unfold MaxThermostat.set_preset_mode
  split_ifs <;> rfl

lemma lifecycleTrace_cons (d : ℕ) (n : String) (cs : List AdapterCall) :
    lifecycleTrace d n cs =
      ConnCall.addPairedDevice d ::
        ((MaxThermostat.init d n).1.run cs).2 := rfl

/-- C6: constructing a `MaxThermostat` always issues
`add_paired_device(device_id)` first, so in any lifecycle trace the
pairing call occupies position 0 and every `set_temperature` or `wakeup`
command sits strictly after it. -/
theorem claim_C6 (d : ℕ) (n : String) (cs : List AdapterCall)
    (i : ℕ) (c : ConnCall)
    (hget : (lifecycleTrace d n cs).get? i = some c)
    (hcmd : c.isCommand = true) :
    0 < i ∧
      (lifecycleTrace d n cs).head? =
        some (ConnCall.addPairedDevice d) := by
  rw [lifecycleTrace_cons] at hget ⊢
  refine ⟨?_, rfl⟩
  cases i with
  | zero =>
      simp only [List.get?] at hget
      cases hget
      simp [ConnCall.isCommand] at hcmd
  | succ j => exact Nat.succ_pos j

/-- C6 witness: in the lifecycle consisting of construction followed by
`async_added_to_hass`, the `wakeup` command sits at position 1, after the
pairing call at position 0. -/
theorem claim_C6_witness :
    0 < 1 ∧
      (lifecycleTrace 7 "kitchen" [AdapterCall.addedToHass]).head? =
        some (ConnCall.addPairedDevice 7) :=
  claim_C6 7 "kitchen" [AdapterCall.addedToHass] 1 (ConnCall.wakeup 7)
    (by decide) (by decide)

/-- C7: for any command whose temperature lies in the representable range
and whose device id fits the 24-bit address space, decoding the encoded
frame succeeds and recovers the device id, the mode, and the temperature
up to the 0.5 °C quantization step (here within a quarter degree). -/
theorem claim_C7 (c : Command)
    (h1 : MIN_TEMPERATURE ≤ c.temperature)
    (h2 : c.temperature ≤ MAX_TEMPERATURE)
    (h3 : c.device_id < 2 ^ 24) :
    ∃ frame d, encode c = some frame ∧ decode frame = some d ∧
      d.device_id = c.device_id ∧ d.mode = c.mode ∧
      |d.temperature - c.temperature| ≤ 1/4 := by
  have henc : encode c =
      some [OPCODE_SET_TEMPERATURE,
        c.device_id / 65536 % 256, c.device_id / 256 % 256,
        c.device_id % 256,
        quantizeTemp c.temperature, encodeMode c.mode,
        checksum [OPCODE_SET_TEMPERATURE,
          c.device_id / 65536 % 256, c.device_id / 256 % 256,
          c.device_id % 256,
          quantizeTemp c.temperature, encodeMode c.mode]] := by
    unfold encode
    rw [if_pos ⟨h1, h2, h3⟩]
  refine ⟨_, ⟨c.device_id, (quantizeTemp c.temperature : ℚ) / 2, c.mode⟩,
    henc, ?_, rfl, rfl, quantizeTemp_close c.temperature h1⟩
  have hid : c.device_id / 65536 % 256 * 65536 +
      c.device_id / 256 % 256 * 256 + c.device_id % 256 = c.device_id := by
    omega
  simp [decode, decodeMode_encodeMode, hid]

/-- C7 witness: the roundtrip at the concrete command
`(device 7, 21.5 °C, manual)`. -/
theorem claim_C7_witness :
    ∃ frame d, encode ⟨7, 43/2, Mode.manual⟩ = some frame ∧
      decode frame = some d ∧ d.device_id = 7 ∧ d.mode = Mode.manual ∧
      |d.temperature - 43/2| ≤ 1/4 :=
  claim_C7 ⟨7, 43/2, Mode.manual⟩
    (by norm_num [MIN_TEMPERATURE]) (by norm_num [MAX_TEMPERATURE])
    (by norm_num)
